import Mathlib

/-!
# Verification of the animation/transition orchestrator of `playstation1-3d`

This file contains a shallow embedding of the animation-orchestration core of
the repository (the `CameraAnimator` and `Experience` coordinator in
`src/components/Experience.jsx`, the volume/seek/channel handlers in
`src/components/VideoControls.jsx`, and the lid animation of the
`Playstation` component), together with theorems settling the frozen claims
about that code.

Modelling conventions:
* Continuous values (camera coordinates, colors, times, volumes, progress)
  are rationals (`ℚ`).
* The externally-owned `OrbitControls` object is modelled by its fields that
  the code touches: `enabled`, the `update` method (which the code replaces
  by a no-op while a run is in flight), and `target`.
* React `useEffect` semantics are modelled explicitly: an effect re-runs when
  one of its dependencies changes; before the re-run React invokes the cleanup
  returned by the effect's *previous* execution (an execution that returned
  early registers no cleanup).  State updates inside one event handler are
  batched into a single re-render, so all affected cleanups run first (in
  declaration order) and then all affected effect bodies (in declaration
  order).
* GSAP tweens are modelled by an optional record of the values captured at
  tween start; `onUpdate` at eased progress `t` and `onComplete` are explicit
  transitions.  Killing a tween simply discards it (no callback fires).
-/

namespace PS1

/-- Vector with three ℚ components (models `THREE.Vector3`). -/
structure Vec3 where
  x : ℚ
  y : ℚ
  z : ℚ
deriving DecidableEq, Repr

/-- Scalar linear interpolation, `THREE.MathUtils.lerp`. -/
def lerpQ (a b t : ℚ) : ℚ := a + (b - a) * t

/-- Models `Vector3.lerpVectors`: componentwise linear interpolation. -/
def Vec3.lerpVectors (a b : Vec3) (t : ℚ) : Vec3 :=
  ⟨lerpQ a.x b.x t, lerpQ a.y b.y t, lerpQ a.z b.z t⟩

/-- RGB color with components in [0,1] (models `THREE.Color`). -/
structure Color3 where
  r : ℚ
  g : ℚ
  b : ℚ
deriving DecidableEq, Repr

/-- Models `Color.lerp` towards `b` with factor `t` (componentwise). -/
def Color3.lerpC (a b : Color3) (t : ℚ) : Color3 :=
  ⟨lerpQ a.r b.r t, lerpQ a.g b.g t, lerpQ a.b b.b t⟩

/-! ## Constants from `Experience.jsx` -/

/-- Source constant `INITIAL_CAMERA.position = [-2.4, 1.08, 3.25]`. -/
def INITIAL_CAMERA_position : Vec3 := ⟨-12/5, 27/25, 13/4⟩

/-- Source constant `INITIAL_CAMERA.target = [0, 0.66, 0]`. -/
def INITIAL_CAMERA_target : Vec3 := ⟨0, 33/50, 0⟩

/-- Source constant `INITIAL_CAMERA.fov = 40`. -/
def INITIAL_CAMERA_fov : ℚ := 40

/-- Source constant `CLOSEUP_FOV = 35`. -/
def CLOSEUP_FOV : ℚ := 35

/-- Source constant `CLOSEUP_DISTANCE = 2.5`. -/
def CLOSEUP_DISTANCE : ℚ := 5/2

/-- Source constant `BG_DAY = new THREE.Color("#dbdbdf")` (components /255). -/
def BG_DAY : Color3 := ⟨219/255, 219/255, 223/255⟩

/-- Source constant `BG_NIGHT = new THREE.Color("#120E1A")` (components /255). -/
def BG_NIGHT : Color3 := ⟨18/255, 14/255, 26/255⟩

/-- One entry of the `VIDEOS` list. -/
structure Video where
  vid : String
  label : String
  src : String
  cover : String
deriving DecidableEq, Repr

/-- The fixed `VIDEOS` list of `Experience.jsx`. -/
def VIDEOS : List Video :=
  [⟨"crash", "Crash Team Racing", "/crash-team-racing.webm", "/cover-crash.webp"⟩,
   ⟨"harryp", "Harry Potter", "/harryp.webm", "/cover-harryp.webp"⟩,
   ⟨"winning", "Winning Eleven", "/winning-eleven.webm", "/cover-winning.webp"⟩]

/-- Source constant `DEFAULT_VIDEO_INDEX = 0`. -/
def DEFAULT_VIDEO_INDEX : ℤ := 0

/-- Lookup `VIDEOS[i].src` for an integer index (JS indexing; out of range gives
`none`, where the JS code would throw). -/
def videoSrcAt (i : ℤ) : Option String :=
  if i < 0 then none else (VIDEOS.get? i.toNat).map (·.src)

/-! ## `handleSeek` (`Experience.jsx`, lines 373-380)

```js
const handleSeek = useCallback((offset) => {
  const video = videoRef.current;
  if (!video) return;
  video.currentTime = Math.max(0, Math.min(video.duration || 0, video.currentTime + offset));
}, []);
```
-/

/-- The fields of the HTML video element that `handleSeek` touches.
`duration` is a rational here; the `duration || 0` JS fallback (for a falsy
`0` duration) is modelled by the explicit zero test below.  (A `NaN`
duration, possible in JS before metadata loads, has no counterpart in ℚ and
also collapses to the `0` branch in the source.) -/
structure VideoEl where
  currentTime : ℚ
  duration : ℚ
deriving DecidableEq, Repr

/-- Models `handleSeek`: clamp `currentTime + offset` into `[0, duration || 0]`;
no-op (returns `none`) when no video element is present. -/
def handleSeek (video : Option VideoEl) (offset : ℚ) : Option VideoEl :=
  match video with
  | none => none
  | some v =>
      some { v with
        currentTime :=
          max 0 (min (if v.duration = 0 then 0 else v.duration)
            (v.currentTime + offset)) }

/-! ## Volume handlers (`VideoControls.jsx`, lines 133-134, 158-165, 203-212)

```js
const [volume, setVolume] = useState(1);
const lastNonZeroVolumeRef = useRef(1);

const handleVolumeChange = useCallback((newVol) => {
  const clamped = Math.max(0, Math.min(1, newVol));
  setVolume(clamped);
  if (videoRef.current) videoRef.current.volume = clamped;
}, [videoRef]);

const handleVolLabelClick = useCallback(() => {
  if (volume > 0) {
    lastNonZeroVolumeRef.current = volume;
    handleVolumeChange(0);
    return;
  }
  const restored = lastNonZeroVolumeRef.current > 0 ? lastNonZeroVolumeRef.current : 1;
  handleVolumeChange(restored);
}, [volume, handleVolumeChange]);
```
-/

/-- The `volume` state plus the `lastNonZeroVolumeRef` ref of `VideoControls`. -/
structure VolState where
  volume : ℚ
  lastNonZero : ℚ
deriving DecidableEq, Repr

/-- Initial value: `useState(1)` / `useRef(1)`. -/
def volInit : VolState := ⟨1, 1⟩

/-- Models `handleVolumeChange`: clamp into [0,1] and store. -/
def handleVolumeChange (s : VolState) (newVol : ℚ) : VolState :=
  { s with volume := max 0 (min 1 newVol) }

/-- Models `handleVolLabelClick` (mute toggle). -/
def handleVolLabelClick (s : VolState) : VolState :=
  if 0 < s.volume then
    handleVolumeChange { s with lastNonZero := s.volume } 0
  else
    handleVolumeChange s (if 0 < s.lastNonZero then s.lastNonZero else 1)

/-! ## Lid animation (`Playstation.jsx`)

```js
const LID_ANIM_DURATION = 1.0;
function easeInOut(t) { return t < 0.5 ? 2*t*t : -1 + (4 - 2*t)*t; }

const startLidAnimation = useCallback(() => {
  if (!lidRef.current) return;
  const lid = lidRef.current;
  const startAngle = lid.rotation.x;
  const endAngle = 0;
  if (Math.abs(startAngle - endAngle) < 0.001) return;
  lidAnimRef.current = { active: true, startAngle, endAngle, elapsed: 0 };
}, []);

useEffect(() => {
  if (openLidTrigger === 0 || !lidRef.current || initialLidRotationX === null) return;
  lidAnimRef.current = { active: true, startAngle: lidRef.current.rotation.x,
    endAngle: initialLidRotationX, elapsed: 0 };
}, [openLidTrigger]);
```
-/

/-- Source constant `LID_ANIM_DURATION = 1.0` seconds. -/
def LID_ANIM_DURATION : ℚ := 1

/-- The custom `easeInOut` easing of `Playstation.jsx`. -/
def easeInOut (t : ℚ) : ℚ :=
  if t < 1/2 then 2 * t * t else -1 + (4 - 2 * t) * t

/-- Models `lidAnimRef.current`. -/
structure LidAnim where
  active : Bool
  startAngle : ℚ
  endAngle : ℚ
  elapsed : ℚ
deriving DecidableEq, Repr

/-- Lid state: the lid object's `rotation.x` plus the animation record. -/
structure LidState where
  rotationX : ℚ
  anim : LidAnim
deriving DecidableEq, Repr

/-- Models `startLidAnimation` (lid close, target angle 0): a no-op when the start
angle is already within `0.001` of the end angle. -/
def startLidAnimation (s : LidState) : LidState :=
  if |s.rotationX - 0| < 1/1000 then s
  else { s with anim := ⟨true, s.rotationX, 0, 0⟩ }

/-- The lid-open effect body (fires when `openLidTrigger` becomes nonzero):
starts an animation towards `initialLidRotationX` with NO epsilon guard. -/
def openLidEffect (initialLidRotationX : ℚ) (s : LidState) : LidState :=
  { s with anim := ⟨true, s.rotationX, initialLidRotationX, 0⟩ }

/-- One `useFrame` tick of the lid animation with frame time `delta`. -/
def lidFrame (delta : ℚ) (s : LidState) : LidState :=
  if s.anim.active = false then s
  else
    let elapsed := s.anim.elapsed + delta
    let t := min (elapsed / LID_ANIM_DURATION) 1
    let easedT := easeInOut t
    let angle := s.anim.startAngle + (s.anim.endAngle - s.anim.startAngle) * easedT
    if 1 ≤ t then
      { rotationX := s.anim.endAngle,
        anim := { s.anim with elapsed := elapsed, active := false } }
    else
      { rotationX := angle, anim := { s.anim with elapsed := elapsed } }

/-! ## `CameraAnimator` (`Experience.jsx`, lines 70-251)

The component owns two `useEffect`s sharing one `tweenRef` and one
`savedUpdateRef`:

* the zoom-in effect (deps `[zoomTrigger, ...]`, declared first, lines
  99-175), and
* the zoom-out effect (deps `[zoomOutTrigger, ...]`, declared second, lines
  178-248).

Each body: kills the current tween, captures the start pose from the live
camera/controls/scene objects, disables the controls, saves
`controls.update` into `savedUpdateRef` and replaces it by a no-op, and
starts a GSAP tween on a progress value.  Each returned cleanup: kills the
tween and, if `savedUpdateRef` still holds a function, restores it and
re-enables the controls.  `onComplete` snaps to the end pose, restores the
saved update, copies the end target into `controls.target`, re-enables the
controls (via a `requestAnimationFrame`, folded into the completion step
here), and fires the completion callback.

React semantics captured by the model: an effect's cleanup runs only when
that effect's own dependencies change (or on unmount); an execution that
returned early (trigger equal to zero) registers no cleanup.  The flags
`fwdCleanup` / `revCleanup` record whether the corresponding effect's last
execution registered a cleanup. -/

/-- What `controls.update` currently is: the genuine OrbitControls method, the
no-op `() => {}` installed by a run (a `.bind` of the no-op is still a no-op),
or JS `null` (only assignable through `savedUpdateRef.current` when that ref
is empty; unreachable in the traces below). -/
inductive UpdateFn
  | genuine
  | noop
  | nullUpd
deriving DecidableEq, Repr

/-- Direction of a camera run. -/
inductive Dir
  | fwd
  | rev
deriving DecidableEq, Repr

/-- The values a camera tween captures at start (the local `const`s of the
effect body) plus its fixed end pose. -/
structure TweenData where
  dir : Dir
  startPos : Vec3
  startTarget : Vec3
  startFov : ℚ
  startBg : Color3
  endPos : Vec3
  endTarget : Vec3
  endFov : ℚ
  endBg : Color3
deriving DecidableEq, Repr

/-- The mutable state `CameraAnimator` drives: the camera
(`position`/`fov`/last `lookAt` aim point), the `OrbitControls` object
(`target`, `enabled`, current `update` method), the scene background, the
shared `savedUpdateRef` and `tweenRef`, and the two effect-cleanup
registration flags. -/
structure CamState where
  camPos : Vec3
  camFov : ℚ
  lookAt : Vec3
  controlsTarget : Vec3
  bg : Option Color3
  enabled : Bool
  update : UpdateFn
  saved : Option UpdateFn
  tween : Option TweenData
  fwdCleanup : Bool
  revCleanup : Bool
deriving DecidableEq, Repr

/-- State after mount: camera at the initial pose, controls enabled with the
genuine update method, day background, no tween. -/
def camInit : CamState :=
  { camPos := INITIAL_CAMERA_position
    camFov := INITIAL_CAMERA_fov
    lookAt := INITIAL_CAMERA_target
    controlsTarget := INITIAL_CAMERA_target
    bg := some BG_DAY
    enabled := true
    update := UpdateFn.genuine
    saved := none
    tween := none
    fwdCleanup := false
    revCleanup := false }

/-- Zoom-in end position: `(screenCenter.x, screenCenter.y + 0.03,
screenCenter.z + CLOSEUP_DISTANCE)`. -/
def fwdEndPos (sc : Vec3) : Vec3 := ⟨sc.x, sc.y + 3/100, sc.z + CLOSEUP_DISTANCE⟩

/-- The effect cleanup (lines 164-174 and 237-247, identical code): kill the
tween; if `savedUpdateRef` holds a function, restore it, clear the ref and
re-enable the controls. -/
def runEffectCleanup (s : CamState) : CamState :=
  let s1 := { s with tween := none }
  match s1.saved with
  | some u => { s1 with update := u, saved := none, enabled := true }
  | none => s1

/-- The zoom-in effect body (lines 100-162) once past its guards
(`zoomTrigger ≠ 0`, screen center and controls present): kill the current
tween, capture the start pose from the live objects, freeze the controls and
start the forward tween. -/
def fwdBody (sc : Vec3) (s : CamState) : CamState :=
  { s with
    enabled := false
    saved := some s.update
    update := UpdateFn.noop
    tween := some
      { dir := Dir.fwd
        startPos := s.camPos
        startTarget := s.controlsTarget
        startFov := s.camFov
        startBg := s.bg.getD BG_DAY
        endPos := fwdEndPos sc
        endTarget := sc
        endFov := CLOSEUP_FOV
        endBg := BG_NIGHT }
    fwdCleanup := true }

/-- The zoom-out effect body (lines 179-235) once past its guards
(`zoomOutTrigger ≠ 0`, controls present). -/
def revBody (s : CamState) : CamState :=
  { s with
    enabled := false
    saved := some s.update
    update := UpdateFn.noop
    tween := some
      { dir := Dir.rev
        startPos := s.camPos
        startTarget := s.controlsTarget
        startFov := s.camFov
        startBg := s.bg.getD BG_NIGHT
        endPos := INITIAL_CAMERA_position
        endTarget := INITIAL_CAMERA_target
        endFov := INITIAL_CAMERA_fov
        endBg := BG_DAY }
    revCleanup := true }

/-- Clicking the PlayStation: `setZoomTrigger(n => n + 1)`.  The zoom-in
effect's dependency changed, so React runs its previously registered cleanup
(if any) and then the body.  The zoom-out effect is untouched (its
dependency `zoomOutTrigger` did not change). -/
def clickPs1 (sc : Vec3) (s : CamState) : CamState :=
  fwdBody sc (if s.fwdCleanup then runEffectCleanup s else s)

/-- The camera-axis part of `handleResetAll`: in one batched render it sets
`zoomTrigger` to 0 and increments `zoomOutTrigger`.  Both effects' deps
changed, so both registered cleanups run (declaration order), then the
zoom-in body early-returns on `zoomTrigger === 0` (registering no cleanup)
and the zoom-out body runs. -/
def resetAllCam (s : CamState) : CamState :=
  let s1 := if s.fwdCleanup then runEffectCleanup s else s
  let s2 := if s1.revCleanup then runEffectCleanup s1 else s1
  revBody { s2 with fwdCleanup := false }

/-- Models `onUpdate` of the active tween at eased progress `t`: lerp position, aim
point and fov, write the interpolated background when one is present. -/
def tickTween (t : ℚ) (s : CamState) : CamState :=
  match s.tween with
  | none => s
  | some tw =>
      { s with
        camPos := tw.startPos.lerpVectors tw.endPos t
        lookAt := tw.startTarget.lerpVectors tw.endTarget t
        camFov := lerpQ tw.startFov tw.endFov t
        bg := s.bg.map (fun _ => tw.startBg.lerpC tw.endBg t) }

/-- Models `onComplete` of the active tween: snap to the end pose, restore the saved
update method (`controls.update = savedUpdateRef.current`), copy the end
target into `controls.target`, re-enable the controls (the
`requestAnimationFrame` deferral is folded in) and fire the completion
callback.  Returns the new state and whether the callback fired. -/
def completeTween (s : CamState) : CamState × Bool :=
  match s.tween with
  | none => (s, false)
  | some tw =>
      ({ s with
          camPos := tw.endPos
          lookAt := tw.endTarget
          camFov := tw.endFov
          bg := s.bg.map (fun _ => tw.endBg)
          update := match s.saved with
            | some u => u
            | none => UpdateFn.nullUpd
          saved := none
          controlsTarget := tw.endTarget
          enabled := true
          tween := none }, true)

/-- The camera-axis events a user session can generate. -/
inductive CamEv
  | click
  | reset
  | complete
  | tick (t : ℚ)
deriving DecidableEq, Repr

/-- One camera-axis step (screen center `sc` fixed by the loaded model). -/
def camStep (sc : Vec3) (s : CamState) : CamEv → CamState
  | CamEv.click => clickPs1 sc s
  | CamEv.reset => resetAllCam s
  | CamEv.complete => (completeTween s).1
  | CamEv.tick t => tickTween t s

/-- Run a camera-axis event trace from the mounted state. -/
def camRun (sc : Vec3) (evs : List CamEv) : CamState :=
  evs.foldl (camStep sc) camInit

/-! ## `Experience` coordinator (`Experience.jsx`, lines 275-925)

The app-level state: React state variables (`zoomTrigger`,
`currentVideoIndex`, `videoSrc`, `videoTexture`, `isPlaying`, `isResetting`,
`zoomOutTrigger`, `openLidTrigger`, `showControls`, `isHidden`), the refs
(`videoRef` presence, `hasShownControlsRef`, `showTimerRef` armed,
`isHidingControlsRef`), and whether a forward/reverse camera tween is in
flight.  The video texture is abstracted to a presence flag; `controlsKey`
and the GSAP panel timelines are abstracted away (only the `hideAnim` flag and
its completion event remain). -/

structure AppState where
  zoomTrigger : ℕ
  zoomOutTrigger : ℕ
  openLidTrigger : ℕ
  isResetting : Bool
  currentVideoIndex : ℤ
  videoSrc : Option String
  videoTexture : Bool
  videoElem : Bool
  isPlaying : Bool
  showControls : Bool
  isHidden : Bool
  hasShownControls : Bool
  showTimer : Bool
  hideAnim : Bool
  fwdRun : Bool
  revRun : Bool
deriving DecidableEq, Repr

/-- Initial app state (all `useState` initialisers and refs). -/
def appInit : AppState :=
  { zoomTrigger := 0
    zoomOutTrigger := 0
    openLidTrigger := 0
    isResetting := false
    currentVideoIndex := DEFAULT_VIDEO_INDEX
    videoSrc := none
    videoTexture := false
    videoElem := false
    isPlaying := false
    showControls := false
    isHidden := false
    hasShownControls := false
    showTimer := false
    hideAnim := false
    fwdRun := false
    revRun := false }

/-- Derived flag `panelReady = (videoTexture || isResetting) && showControls` (line 726). -/
def panelReady (s : AppState) : Bool :=
  (s.videoTexture || s.isResetting) && s.showControls

/-- Derived flag `panelVisible = panelReady && !isHidden` (line 727): the controls panel and
the jewel cases are rendered (and clickable) exactly when this holds. -/
def panelVisible (s : AppState) : Bool :=
  panelReady s && !s.isHidden

/-- The 8-second-delay effect (lines 526-534): it re-runs whenever
`isPlaying` or `videoTexture` change; the cleanup first clears any pending
timeout, then the body arms the one-shot latch when media is playing with a
ready texture and the latch has not fired yet. -/
def applyShowEffect (s : AppState) : AppState :=
  let s1 := { s with showTimer := false }
  if s1.isPlaying && s1.videoTexture && !s1.hasShownControls then
    { s1 with hasShownControls := true, showTimer := true }
  else s1

/-- Models `handleHide` (lines 392-427): a no-op while a hide is already running;
hides immediately when the panel DOM refs are absent (i.e. the panel is not
rendered, which happens exactly when it is not visible); otherwise starts the
VHS-static hide timeline. -/
def handleHide (s : AppState) : AppState :=
  if s.hideAnim then s
  else if !(panelVisible s) then { s with isHidden := true }
  else { s with hideAnim := true }

/-- Models `handleSwitchVideo(newIndex)` (lines 382-389): pause and drop the current
video element, clear play state and texture, select the new index and source
(starting its load).  The 8-second effect re-runs since its deps changed. -/
def handleSwitchVideo (i : ℤ) (s : AppState) : AppState :=
  applyShowEffect
    { s with
      isPlaying := false
      videoTexture := false
      videoElem := false
      currentVideoIndex := i
      videoSrc := videoSrcAt i }

/-- Models `handleResetAll` (lines 451-487), numbered as in the source. -/
def handleResetAll (s : AppState) : AppState :=
  if s.isResetting then s  -- Prevent double-reset
  else
    -- 1. mark as resetting; 2. pause video, clear the show timer, drop the
    -- video element, clear the one-shot latch
    let s1 := { s with
      isResetting := true
      showTimer := false
      videoElem := false
      hasShownControls := false }
    -- 3. hide the panel
    let s2 := handleHide s1
    -- 4. clear play state, texture and source
    let s3 := { s2 with isPlaying := false, videoTexture := false, videoSrc := none }
    -- 5. reset zoomTrigger to 0 (its effect cleanup kills the forward tween)
    let s4 := { s3 with zoomTrigger := 0, fwdRun := false }
    -- 6. start the reverse camera run;  7. start the lid-open run
    let s5 := { s4 with
      zoomOutTrigger := s4.zoomOutTrigger + 1
      revRun := true
      openLidTrigger := s4.openLidTrigger + 1 }
    -- the 8-second effect re-runs (isPlaying/videoTexture changed)
    applyShowEffect s5

/-- App-level events.  Each models one discrete callback: a user action, a
timer firing, a media notification, or an animation completing. -/
inductive Ev
  | clickPs1
  | zoomComplete
  | videoReady
  | playOk
  | pauseVideo
  | videoEnded
  | showTimerFire
  | hideReq
  | hideComplete
  | caseClick (i : ℤ)
  | prevVideo
  | nextVideo
  | showPanel
  | resetAll
  | zoomOutComplete
deriving DecidableEq, Repr

/-- One app-level step.  Guards reproduce the conditions under which each
callback can fire: DOM presence of the panel for its buttons, an in-flight
tween for its completion callback, an armed timer for its timeout. -/
def appStep (s : AppState) : Ev → AppState
  | Ev.clickPs1 =>
      -- handlePs1Click (guarded on screenCenterRef, which is set once the
      -- model loads; assumed loaded).  Increments zoomTrigger; the zoom-in
      -- body kills whatever tween is in tweenRef, including a reverse one.
      { s with zoomTrigger := s.zoomTrigger + 1, fwdRun := true, revRun := false }
  | Ev.zoomComplete =>
      -- forward tween onComplete → handleZoomComplete (lines 326-330)
      if s.fwdRun then
        let s1 := { s with fwdRun := false }
        if s1.videoSrc = none then
          { s1 with videoSrc := videoSrcAt s1.currentVideoIndex }
        else s1
      else s
  | Ev.videoReady =>
      -- VideoTextureLoader onReady → handleVideoReady (lines 332-356),
      -- up to the play() call (its resolution is the playOk event)
      if s.videoSrc ≠ none && !s.videoTexture then
        applyShowEffect { s with videoTexture := true, videoElem := true }
      else s
  | Ev.playOk =>
      -- a play() promise resolves → setIsPlaying(true)
      if s.videoElem then applyShowEffect { s with isPlaying := true } else s
  | Ev.pauseVideo =>
      -- handlePlayPause on a playing video (lines 359-371), pause branch
      if s.videoElem && s.isPlaying then
        applyShowEffect { s with isPlaying := false }
      else s
  | Ev.videoEnded =>
      -- the "ended" listener (lines 339-348)
      if s.videoElem then
        let i := (s.currentVideoIndex + 1) % (VIDEOS.length : ℤ)
        applyShowEffect
          { s with
            isPlaying := false
            videoTexture := false
            videoElem := false
            currentVideoIndex := i
            videoSrc := videoSrcAt i }
      else s
  | Ev.showTimerFire =>
      -- the 8-second timeout fires → setShowControls(true)
      if s.showTimer then { s with showTimer := false, showControls := true } else s
  | Ev.hideReq =>
      -- the panel's hide button / H key → handleHide; only reachable while
      -- the panel is mounted
      if panelVisible s then handleHide s else s
  | Ev.hideComplete =>
      -- the hide timeline's onComplete (lines 415-419)
      if s.hideAnim then { s with hideAnim := false, isHidden := true } else s
  | Ev.caseClick i =>
      -- clicking jewel case i (lines 848-871): rendered for each index of
      -- VIDEOS while the panel is visible, active when i differs
      if panelVisible s && 0 ≤ i && i < (VIDEOS.length : ℤ)
          && i ≠ s.currentVideoIndex then
        handleSwitchVideo i s
      else s
  | Ev.prevVideo =>
      -- handlePrevVideo (VideoControls.jsx, lines 184-187)
      if panelVisible s then
        handleSwitchVideo
          ((s.currentVideoIndex - 1 + (VIDEOS.length : ℤ)) % (VIDEOS.length : ℤ)) s
      else s
  | Ev.nextVideo =>
      -- handleNextVideo (VideoControls.jsx, lines 189-192)
      if panelVisible s then
        handleSwitchVideo ((s.currentVideoIndex + 1) % (VIDEOS.length : ℤ)) s
      else s
  | Ev.showPanel =>
      -- handleShow via the residual LED or the H key (both need a hidden
      -- panel that exists, i.e. showControls && isHidden)
      if s.showControls && s.isHidden then { s with isHidden := false } else s
  | Ev.resetAll =>
      -- the panel's power button → handleResetAll
      if panelVisible s then handleResetAll s else s
  | Ev.zoomOutComplete =>
      -- reverse tween onComplete → handleZoomOutComplete (lines 435-449)
      if s.revRun then
        { s with
          revRun := false
          isResetting := false
          showControls := false
          isHidden := false
          currentVideoIndex := DEFAULT_VIDEO_INDEX
          hideAnim := false }
      else s

/-- Run an app-level event trace from the initial state. -/
def appRun (evs : List Ev) : AppState :=
  evs.foldl appStep appInit

/-! ## Shared helper facts -/

/-- A concrete screen center for closed test traces.  The actual value is
reported at runtime by `onScreenReady` from the loaded model geometry; the
facts below do not depend on which value arrives. -/
def scDemo : Vec3 := ⟨0, 1, 0⟩

/-- Interpolating at progress 0 returns the start value. -/
lemma lerpQ_zero (a b : ℚ) : lerpQ a b 0 = a := by
  simp [lerpQ]

/-- Componentwise version of `lerpQ_zero`. -/
lemma lerpVectors_zero (a b : Vec3) : a.lerpVectors b 0 = a := by
  simp [Vec3.lerpVectors, lerpQ_zero]

/-- The effect cleanup never moves the camera, the aim point, the orbit
target or the background. -/
lemma runEffectCleanup_pose (s : CamState) :
    (runEffectCleanup s).camPos = s.camPos ∧
    (runEffectCleanup s).lookAt = s.lookAt ∧
    (runEffectCleanup s).camFov = s.camFov ∧
    (runEffectCleanup s).controlsTarget = s.controlsTarget ∧
    (runEffectCleanup s).bg = s.bg ∧
    (runEffectCleanup s).fwdCleanup = s.fwdCleanup ∧
    (runEffectCleanup s).revCleanup = s.revCleanup := by
  unfold runEffectCleanup
  cases s.saved <;> simp

/-! ## Theorems for the claims -/

/-- Claim C2, counterexample.  The claim says every run (Camera forward and
reverse, lid open and close) is a no-op when the start pose already equals
the end pose.  For the forward Camera run this is false: in a state whose
camera pose already equals the closeup end pose, the zoom-in body still
freezes the controls and starts a tween (state changes), and completing that
run still fires the completion callback. -/
theorem C2_camera_run_not_noop_on_equal_pose :
    fwdBody scDemo
        { camInit with
          camPos := fwdEndPos scDemo
          controlsTarget := scDemo
          lookAt := scDemo
          camFov := CLOSEUP_FOV
          bg := some BG_NIGHT } ≠
      { camInit with
        camPos := fwdEndPos scDemo
        controlsTarget := scDemo
        lookAt := scDemo
        camFov := CLOSEUP_FOV
        bg := some BG_NIGHT } ∧
    (completeTween (fwdBody scDemo
        { camInit with
          camPos := fwdEndPos scDemo
          controlsTarget := scDemo
          lookAt := scDemo
          camFov := CLOSEUP_FOV
          bg := some BG_NIGHT })).2 = true := by
  refine ⟨?_, by decide⟩
  intro h
  have := congrArg CamState.enabled h
  simp [fwdBody, camInit] at this

/-- Claim C2, amended: only the lid-close animation
(`startLidAnimation`) treats a start angle within epsilon (0.001) of the end
angle as a no-op; the forward and reverse Camera runs and the lid-open run
always start their interpolation (and the Camera runs always fire their
completion callback on completion) even when start equals end. -/
theorem C2_epsilon_noop_only_for_lid_close :
    (∀ s : LidState, |s.rotationX - 0| < 1/1000 → startLidAnimation s = s) ∧
    (∀ (sc : Vec3) (s : CamState),
      (fwdBody sc s).tween.isSome = true ∧ (completeTween (fwdBody sc s)).2 = true) ∧
    (∀ s : CamState,
      (revBody s).tween.isSome = true ∧ (completeTween (revBody s)).2 = true) ∧
    (∀ (a : ℚ) (s : LidState), (openLidEffect a s).anim.active = true) := by
  refine ⟨?_, ?_, ?_, ?_⟩
  · intro s h
    unfold startLidAnimation
    rw [if_pos h]
  · intro sc s
    exact ⟨by simp [fwdBody], by simp [completeTween, fwdBody]⟩
  · intro s
    exact ⟨by simp [revBody], by simp [completeTween, revBody]⟩
  · intro a s
    simp [openLidEffect]

/-- Witness for `C2_epsilon_noop_only_for_lid_close` at a concrete closed
lid. -/
theorem C2_epsilon_noop_witness :
    |(0 : ℚ) - 0| < 1/1000 ∧
    startLidAnimation ⟨0, ⟨false, 0, 0, 0⟩⟩ = ⟨0, ⟨false, 0, 0, 0⟩⟩ :=
  ⟨by norm_num, C2_epsilon_noop_only_for_lid_close.1 ⟨0, ⟨false, 0, 0, 0⟩⟩ (by norm_num)⟩

/-- Claim C8: `handleSeek d` sets the current time to the clamp of
`currentTime + d` into `[0, duration]` (for the meaningful case of a
nonnegative duration), and is a no-op when no video element is present. -/
theorem C8_seek_clamps :
    (∀ (v : VideoEl) (d : ℚ), 0 ≤ v.duration →
      handleSeek (some v) d =
        some { v with currentTime := max 0 (min v.duration (v.currentTime + d)) }) ∧
    (∀ d : ℚ, handleSeek none d = none) := by
  constructor
  · intro v d _
    simp only [handleSeek]
    split_ifs with h
    · rw [h]
    · rfl
  · intro d
    rfl

/-- Witness for `C8_seek_clamps`: seeking backwards past the start clamps to
zero. -/
theorem C8_seek_clamps_witness :
    (0 : ℚ) ≤ 10 ∧
    handleSeek (some ⟨5, 10⟩) (-7) =
      some { currentTime := max 0 (min 10 (5 + -7)), duration := 10 } :=
  ⟨by norm_num, C8_seek_clamps.1 ⟨5, 10⟩ (-7) (by norm_num)⟩

/-- Claim C9: the mute toggle round-trips.  Clicking the volume label at
volume `v > 0` stores `v` and mutes; clicking again restores exactly `v`
whenever `v ≤ 1`; and when the volume is zero with no positive stored value,
the toggle restores 1. -/
theorem C9_mute_toggle_roundtrip :
    (∀ s : VolState, 0 < s.volume → s.volume ≤ 1 →
      (handleVolLabelClick s).volume = 0 ∧
      (handleVolLabelClick s).lastNonZero = s.volume ∧
      (handleVolLabelClick (handleVolLabelClick s)).volume = s.volume) ∧
    (∀ s : VolState, s.volume ≤ 0 → s.lastNonZero ≤ 0 →
      (handleVolLabelClick s).volume = 1) := by
  constructor
  · intro s h1 h2
    have hmin : min (1 : ℚ) s.volume = s.volume := min_eq_right h2
    have hmax : max (0 : ℚ) s.volume = s.volume := max_eq_right (le_of_lt h1)
    refine ⟨?_, ?_, ?_⟩
    · simp [handleVolLabelClick, handleVolumeChange, h1]
    · simp [handleVolLabelClick, handleVolumeChange, h1]
    · simp [handleVolLabelClick, handleVolumeChange, h1, hmin, hmax]
  · intro s h1 h2
    have hv : ¬ (0 < s.volume) := not_lt.mpr h1
    have hl : ¬ (0 < s.lastNonZero) := not_lt.mpr h2
    simp [handleVolLabelClick, handleVolumeChange, hv, hl]

/-- Witness for `C9_mute_toggle_roundtrip` at volume one half. -/
theorem C9_mute_toggle_witness :
    (0 : ℚ) < 1/2 ∧ (1 : ℚ)/2 ≤ 1 ∧
    (handleVolLabelClick (handleVolLabelClick ⟨1/2, 1⟩)).volume = 1/2 :=
  ⟨by norm_num, by norm_num,
    (C9_mute_toggle_roundtrip.1 ⟨1/2, 1⟩ (by norm_num) (by norm_num)).2.2⟩

/-- For an in-range integer index the video list supplies a source. -/
lemma videoSrcAt_isSome (i : ℤ) (h0 : 0 ≤ i) (h3 : i < (VIDEOS.length : ℤ)) :
    (videoSrcAt i).isSome = true := by
  have h : i = 0 ∨ i = 1 ∨ i = 2 := by
    simp [VIDEOS] at h3
    omega
  rcases h with rfl | rfl | rfl <;> decide

/-- Claim C6: when playback of the current media ends (the `ended` listener,
reachable only while a video element exists), the coordinator pauses and
discards the current session (`isPlaying`, texture and element cleared) and
moves to index `(i+1) mod N` with the corresponding source, which exists for
every in-range `i`, so its load begins. -/
theorem C6_auto_advance (s : AppState) (h : s.videoElem = true) :
    (appStep s Ev.videoEnded).currentVideoIndex
        = (s.currentVideoIndex + 1) % (VIDEOS.length : ℤ) ∧
    (appStep s Ev.videoEnded).videoSrc
        = videoSrcAt ((s.currentVideoIndex + 1) % (VIDEOS.length : ℤ)) ∧
    (appStep s Ev.videoEnded).isPlaying = false ∧
    (appStep s Ev.videoEnded).videoTexture = false ∧
    (appStep s Ev.videoEnded).videoElem = false ∧
    (0 ≤ s.currentVideoIndex → s.currentVideoIndex < (VIDEOS.length : ℤ) →
      ((appStep s Ev.videoEnded).videoSrc).isSome = true) := by
  have hstep :
      (appStep s Ev.videoEnded).videoSrc
        = videoSrcAt ((s.currentVideoIndex + 1) % (VIDEOS.length : ℤ)) := by
    simp [appStep, h, handleSwitchVideo, applyShowEffect]
  refine ⟨?_, hstep, ?_, ?_, ?_, ?_⟩
  · simp [appStep, h, handleSwitchVideo, applyShowEffect]
  · simp [appStep, h, handleSwitchVideo, applyShowEffect]
  · simp [appStep, h, handleSwitchVideo, applyShowEffect]
  · simp [appStep, h, handleSwitchVideo, applyShowEffect]
  · intro hi0 hi3
    rw [hstep]
    refine videoSrcAt_isSome _ (Int.emod_nonneg _ ?_) (Int.emod_lt_of_pos _ ?_)
    · simp [VIDEOS]
    · simp [VIDEOS]

/-- Witness for `C6_auto_advance`: after the first video (index 0) ends, the
coordinator is on index 1 loading the second source. -/
theorem C6_auto_advance_witness :
    (appRun [Ev.clickPs1, Ev.zoomComplete, Ev.videoReady]).videoElem = true ∧
    (appStep (appRun [Ev.clickPs1, Ev.zoomComplete, Ev.videoReady])
        Ev.videoEnded).currentVideoIndex
      = ((appRun [Ev.clickPs1, Ev.zoomComplete, Ev.videoReady]).currentVideoIndex + 1)
          % (VIDEOS.length : ℤ) ∧
    (appStep (appRun [Ev.clickPs1, Ev.zoomComplete, Ev.videoReady])
        Ev.videoEnded).videoSrc = some "/harryp.webm" := by
  have h : (appRun [Ev.clickPs1, Ev.zoomComplete, Ev.videoReady]).videoElem = true := by
    decide
  refine ⟨h, (C6_auto_advance _ h).1, ?_⟩
  rw [(C6_auto_advance _ h).2.1]
  decide

/-- Every app-level operation preserves the in-range video index. -/
lemma appStep_index_range (s : AppState) (e : Ev)
    (h0 : 0 ≤ s.currentVideoIndex) (h3 : s.currentVideoIndex < (VIDEOS.length : ℤ)) :
    0 ≤ (appStep s e).currentVideoIndex ∧
      (appStep s e).currentVideoIndex < (VIDEOS.length : ℤ) := by
  have hN : (VIDEOS.length : ℤ) = 3 := by simp [VIDEOS]
  rw [hN] at h3 ⊢
  cases e <;>
    first
    | exact ⟨h0, h3⟩
    | (simp only [appStep, handleSwitchVideo, applyShowEffect, handleResetAll,
        handleHide, DEFAULT_VIDEO_INDEX, hN]
       split_ifs <;> simp_all <;> omega)

/-- In-range index is preserved along any whole trace tail. -/
lemma appFold_index_range (evs : List Ev) :
    ∀ s : AppState, 0 ≤ s.currentVideoIndex →
      s.currentVideoIndex < (VIDEOS.length : ℤ) →
      0 ≤ (evs.foldl appStep s).currentVideoIndex ∧
        (evs.foldl appStep s).currentVideoIndex < (VIDEOS.length : ℤ) := by
  induction evs with
  | nil => exact fun s h0 h3 => ⟨h0, h3⟩
  | cons e rest ih =>
      intro s h0 h3
      have h := appStep_index_range s e h0 h3
      exact ih (appStep s e) h.1 h.2

/-- Claim C10: the current video index is always a valid index in `[0, N)`:
every app-level operation (channel prev/next, jewel-case click, end-of-playback
auto-advance, reset) preserves the in-range invariant, and every event trace
from the initial state stays in range. -/
theorem C10_index_in_range :
    (∀ (s : AppState) (e : Ev),
      0 ≤ s.currentVideoIndex → s.currentVideoIndex < (VIDEOS.length : ℤ) →
      0 ≤ (appStep s e).currentVideoIndex ∧
        (appStep s e).currentVideoIndex < (VIDEOS.length : ℤ)) ∧
    (∀ evs : List Ev,
      0 ≤ (appRun evs).currentVideoIndex ∧
        (appRun evs).currentVideoIndex < (VIDEOS.length : ℤ)) :=
  ⟨appStep_index_range,
   fun evs => appFold_index_range evs appInit (by decide) (by decide)⟩

/-- Witness for `C10_index_in_range`: the previous-channel button from index 0
wraps to the last index, still in range. -/
theorem C10_index_in_range_witness :
    0 ≤ (appRun [Ev.clickPs1, Ev.zoomComplete, Ev.videoReady, Ev.playOk,
        Ev.showTimerFire]).currentVideoIndex ∧
    (appRun [Ev.clickPs1, Ev.zoomComplete, Ev.videoReady, Ev.playOk,
        Ev.showTimerFire]).currentVideoIndex < (VIDEOS.length : ℤ) ∧
    0 ≤ (appStep (appRun [Ev.clickPs1, Ev.zoomComplete, Ev.videoReady, Ev.playOk,
        Ev.showTimerFire]) Ev.prevVideo).currentVideoIndex ∧
    (appStep (appRun [Ev.clickPs1, Ev.zoomComplete, Ev.videoReady, Ev.playOk,
        Ev.showTimerFire]) Ev.prevVideo).currentVideoIndex < (VIDEOS.length : ℤ) := by
  have h := C10_index_in_range.1
    (appRun [Ev.clickPs1, Ev.zoomComplete, Ev.videoReady, Ev.playOk, Ev.showTimerFire])
    Ev.prevVideo (by decide) (by decide)
  exact ⟨by decide, by decide, h.1, h.2⟩

/-- The event trace on which claim C1 fails: click the PlayStation (forward
run), let it complete, reset (reverse run starts), click the PlayStation
again while the reverse run is in flight (the zoom-in body kills the reverse
tween and saves the no-op `update` the reverse run had installed — the
zoom-in effect has no registered cleanup at this point because its previous
execution early-returned on `zoomTrigger === 0`), and let the forward run
complete. -/
def traceC1 : List CamEv :=
  [CamEv.click, CamEv.complete, CamEv.reset, CamEv.click, CamEv.complete]

/-- Claim C1, failing evaluation.  After `traceC1` no run is active and the
`enabled` flag has been restored, but `controls.update` is the no-op
installed by the cancelled reverse run, not the genuine OrbitControls
method: the original update method saved when the reverse run froze the
controls was overwritten and is never put back, and the reverse run's
ownership of the controls was never released (neither on completion — it
was killed — nor on cancellation — its effect cleanup never ran). -/
theorem C1_click_during_reset_loses_update :
    (camRun scDemo traceC1).tween = none ∧
    (camRun scDemo traceC1).enabled = true ∧
    (camRun scDemo traceC1).update = UpdateFn.noop ∧
    (camRun scDemo traceC1).update ≠ UpdateFn.genuine := by
  decide

/-- Claim C5, counterexample.  Cancel a forward run at progress one half by
triggering the reverse run: the reverse run's start position, fov and
background are the last-rendered ones, but its start orbit target is
`controls.target` — which is only written on run completion — so it differs
from the last-rendered aim point `lerp(startTarget, endTarget, 1/2)`: the
conjunction claimed (all four start values equal the last-rendered values)
is false. -/
theorem C5_reverse_target_not_last_rendered :
    ¬ (((resetAllCam (tickTween (1/2) (clickPs1 scDemo camInit))).tween.map
          TweenData.startPos
        = some (tickTween (1/2) (clickPs1 scDemo camInit)).camPos) ∧
       ((resetAllCam (tickTween (1/2) (clickPs1 scDemo camInit))).tween.map
          TweenData.startTarget
        = some (tickTween (1/2) (clickPs1 scDemo camInit)).lookAt) ∧
       ((resetAllCam (tickTween (1/2) (clickPs1 scDemo camInit))).tween.map
          TweenData.startFov
        = some (tickTween (1/2) (clickPs1 scDemo camInit)).camFov) ∧
       ((resetAllCam (tickTween (1/2) (clickPs1 scDemo camInit))).tween.map
          TweenData.startBg
        = some ((tickTween (1/2) (clickPs1 scDemo camInit)).bg.getD BG_NIGHT))) := by
  rintro ⟨-, h2, -, -⟩
  revert h2
  simp [resetAllCam, tickTween, clickPs1, fwdBody, revBody, runEffectCleanup,
    camInit, scDemo, Vec3.lerpVectors, lerpQ, INITIAL_CAMERA_target,
    INITIAL_CAMERA_position, INITIAL_CAMERA_fov, BG_DAY, BG_NIGHT, fwdEndPos,
    CLOSEUP_DISTANCE, CLOSEUP_FOV, Vec3.mk.injEq]
  norm_num

/-- Claim C5, amended: when a reverse Camera run is started while a forward
run is in flight at progress `p`, the reverse run samples its start
position, field-of-view and background color from the current last-rendered
values (the background from whatever color is currently displayed, with the
hardcoded night color only as fallback for an absent background), so the
position/fov/background transform is continuous (rendering the reverse run
at progress 0 reproduces the current camera position); but the start orbit
target is sampled from the controls object's current `target`, which still
holds the value from before the forward run (it is written only on
completion), not the forward run's last-rendered aim point. -/
theorem C5_reverse_samples_current_pose (s0 : CamState) (sc : Vec3) (p : ℚ) :
    ((resetAllCam (tickTween p (clickPs1 sc s0))).tween.map TweenData.startPos
        = some (tickTween p (clickPs1 sc s0)).camPos) ∧
    ((resetAllCam (tickTween p (clickPs1 sc s0))).tween.map TweenData.startFov
        = some (tickTween p (clickPs1 sc s0)).camFov) ∧
    ((resetAllCam (tickTween p (clickPs1 sc s0))).tween.map TweenData.startBg
        = some ((tickTween p (clickPs1 sc s0)).bg.getD BG_NIGHT)) ∧
    ((resetAllCam (tickTween p (clickPs1 sc s0))).tween.map TweenData.startTarget
        = some (tickTween p (clickPs1 sc s0)).controlsTarget) ∧
    ((tickTween p (clickPs1 sc s0)).controlsTarget = s0.controlsTarget) ∧
    ((tickTween 0 (resetAllCam (tickTween p (clickPs1 sc s0)))).camPos
        = (tickTween p (clickPs1 sc s0)).camPos) := by
  cases hf : s0.fwdCleanup <;> cases hs : s0.saved <;> cases hb : s0.bg <;>
    simp [clickPs1, resetAllCam, fwdBody, revBody, tickTween, runEffectCleanup,
      lerpQ_zero, lerpVectors_zero, hf, hs, hb]

/-- The show-controls effect touches only `hasShownControls` and
`showTimer`; all other fields are preserved. -/
lemma applyShowEffect_preserves (s : AppState) :
    (applyShowEffect s).isResetting = s.isResetting ∧
    (applyShowEffect s).zoomTrigger = s.zoomTrigger ∧
    (applyShowEffect s).zoomOutTrigger = s.zoomOutTrigger ∧
    (applyShowEffect s).openLidTrigger = s.openLidTrigger ∧
    (applyShowEffect s).currentVideoIndex = s.currentVideoIndex ∧
    (applyShowEffect s).videoSrc = s.videoSrc ∧
    (applyShowEffect s).videoTexture = s.videoTexture ∧
    (applyShowEffect s).videoElem = s.videoElem ∧
    (applyShowEffect s).isPlaying = s.isPlaying ∧
    (applyShowEffect s).showControls = s.showControls ∧
    (applyShowEffect s).isHidden = s.isHidden ∧
    (applyShowEffect s).hideAnim = s.hideAnim ∧
    (applyShowEffect s).fwdRun = s.fwdRun ∧
    (applyShowEffect s).revRun = s.revRun := by
  cases h : (s.isPlaying && s.videoTexture && !s.hasShownControls) <;>
    simp [applyShowEffect, h]

/-- Hiding the panel touches only `isHidden` and `hideAnim`. -/
lemma handleHide_preserves (s : AppState) :
    (handleHide s).isResetting = s.isResetting ∧
    (handleHide s).zoomTrigger = s.zoomTrigger ∧
    (handleHide s).zoomOutTrigger = s.zoomOutTrigger ∧
    (handleHide s).openLidTrigger = s.openLidTrigger ∧
    (handleHide s).currentVideoIndex = s.currentVideoIndex ∧
    (handleHide s).videoSrc = s.videoSrc ∧
    (handleHide s).videoTexture = s.videoTexture ∧
    (handleHide s).videoElem = s.videoElem ∧
    (handleHide s).isPlaying = s.isPlaying ∧
    (handleHide s).showControls = s.showControls ∧
    (handleHide s).hasShownControls = s.hasShownControls ∧
    (handleHide s).showTimer = s.showTimer ∧
    (handleHide s).fwdRun = s.fwdRun ∧
    (handleHide s).revRun = s.revRun := by
  unfold handleHide
  split_ifs <;> simp

@[simp] lemma applyShowEffect_videoSrc (s : AppState) :
    (applyShowEffect s).videoSrc = s.videoSrc :=
  ((((((applyShowEffect_preserves s).2).2).2).2).2).1

@[simp] lemma applyShowEffect_videoElem (s : AppState) :
    (applyShowEffect s).videoElem = s.videoElem :=
  (applyShowEffect_preserves s).2.2.2.2.2.2.2.1

@[simp] lemma applyShowEffect_videoTexture (s : AppState) :
    (applyShowEffect s).videoTexture = s.videoTexture :=
  (applyShowEffect_preserves s).2.2.2.2.2.2.1

@[simp] lemma applyShowEffect_isPlaying (s : AppState) :
    (applyShowEffect s).isPlaying = s.isPlaying :=
  (applyShowEffect_preserves s).2.2.2.2.2.2.2.2.1

@[simp] lemma applyShowEffect_currentVideoIndex (s : AppState) :
    (applyShowEffect s).currentVideoIndex = s.currentVideoIndex :=
  (applyShowEffect_preserves s).2.2.2.2.1

@[simp] lemma handleHide_videoSrc (s : AppState) :
    (handleHide s).videoSrc = s.videoSrc :=
  (handleHide_preserves s).2.2.2.2.2.1

@[simp] lemma handleHide_videoElem (s : AppState) :
    (handleHide s).videoElem = s.videoElem :=
  (handleHide_preserves s).2.2.2.2.2.2.2.1

@[simp] lemma handleSwitchVideo_fields (i : ℤ) (s : AppState) :
    (handleSwitchVideo i s).videoSrc = videoSrcAt i ∧
    (handleSwitchVideo i s).videoElem = false ∧
    (handleSwitchVideo i s).videoTexture = false ∧
    (handleSwitchVideo i s).isPlaying = false ∧
    (handleSwitchVideo i s).currentVideoIndex = i := by
  unfold handleSwitchVideo
  simp

/-- Reset on an already-resetting state is the identity. -/
lemma handleResetAll_of_isResetting (s : AppState) (h : s.isResetting = true) :
    handleResetAll s = s := by
  unfold handleResetAll
  rw [if_pos h]

/-- Key fields of a reset from a non-resetting state. -/
lemma handleResetAll_fields (s : AppState) (h : s.isResetting = false) :
    (handleResetAll s).isResetting = true ∧
    (handleResetAll s).zoomOutTrigger = s.zoomOutTrigger + 1 ∧
    (handleResetAll s).openLidTrigger = s.openLidTrigger + 1 ∧
    (handleResetAll s).revRun = true ∧
    (handleResetAll s).fwdRun = false ∧
    (handleResetAll s).zoomTrigger = 0 ∧
    (handleResetAll s).videoSrc = none ∧
    (handleResetAll s).videoTexture = false ∧
    (handleResetAll s).videoElem = false ∧
    (handleResetAll s).isPlaying = false ∧
    (handleResetAll s).hasShownControls = false ∧
    (handleResetAll s).showTimer = false := by
  unfold handleResetAll
  rw [if_neg (by simp [h])]
  refine ⟨?_, ?_, ?_, ?_, ?_, ?_, ?_, ?_, ?_, ?_, ?_, ?_⟩ <;>
    (simp only [applyShowEffect, handleHide]
     split_ifs <;> simp_all)

/-- Claim C3: a reset requested while one is in progress is a no-op — two
`resetAll` events in immediate succession are equivalent to one — and a
reset from a non-resetting state (with the panel mounted, which is the only
place the power button lives) starts exactly one reverse Camera run and one
lid-open run and marks the state as resetting. -/
theorem C3_reset_reentrant (s : AppState) :
    appStep (appStep s Ev.resetAll) Ev.resetAll = appStep s Ev.resetAll ∧
    (s.isResetting = false → panelVisible s = true →
      (appStep s Ev.resetAll).isResetting = true ∧
      (appStep s Ev.resetAll).zoomOutTrigger = s.zoomOutTrigger + 1 ∧
      (appStep s Ev.resetAll).openLidTrigger = s.openLidTrigger + 1 ∧
      (appStep s Ev.resetAll).revRun = true) := by
  constructor
  · by_cases hv : panelVisible s = true
    · by_cases hr : s.isResetting = true
      · simp [appStep, hv, handleResetAll_of_isResetting s hr]
      · have hr2 : (handleResetAll s).isResetting = true :=
          (handleResetAll_fields s (by simpa using hr)).1
        simp only [appStep, hv, if_true]
        split_ifs with h2
        · exact handleResetAll_of_isResetting _ hr2
        · rfl
    · simp [appStep, hv]
  · intro hr hv
    have hf := handleResetAll_fields s hr
    simp only [appStep, hv, if_true]
    exact ⟨hf.1, hf.2.1, hf.2.2.1, hf.2.2.2.1⟩

/-- Witness for `C3_reset_reentrant` on a reachable playing session. -/
theorem C3_reset_reentrant_witness :
    (appRun [Ev.clickPs1, Ev.zoomComplete, Ev.videoReady, Ev.playOk,
        Ev.showTimerFire]).isResetting = false ∧
    panelVisible (appRun [Ev.clickPs1, Ev.zoomComplete, Ev.videoReady, Ev.playOk,
        Ev.showTimerFire]) = true ∧
    (appStep (appRun [Ev.clickPs1, Ev.zoomComplete, Ev.videoReady, Ev.playOk,
        Ev.showTimerFire]) Ev.resetAll).zoomOutTrigger
      = (appRun [Ev.clickPs1, Ev.zoomComplete, Ev.videoReady, Ev.playOk,
        Ev.showTimerFire]).zoomOutTrigger + 1 ∧
    appStep (appStep (appRun [Ev.clickPs1, Ev.zoomComplete, Ev.videoReady,
        Ev.playOk, Ev.showTimerFire]) Ev.resetAll) Ev.resetAll
      = appStep (appRun [Ev.clickPs1, Ev.zoomComplete, Ev.videoReady, Ev.playOk,
        Ev.showTimerFire]) Ev.resetAll := by
  refine ⟨by decide, by decide, ?_, ?_⟩
  · exact ((C3_reset_reentrant _).2 (by decide) (by decide)).2.1
  · exact (C3_reset_reentrant _).1

/-- A mounted video element always has a loaded source (the element is
created by `handleVideoReady`, which only runs for a loaded source, and every
path that clears the source also drops the element). -/
def MediaInv (s : AppState) : Prop := s.videoElem = true → s.videoSrc ≠ none

/-- Every app-level step preserves `MediaInv`. -/
lemma appStep_mediaInv (s : AppState) (e : Ev) (h : MediaInv s) :
    MediaInv (appStep s e) := by
  unfold MediaInv at h ⊢
  cases e
  case clickPs1 => exact h
  case zoomComplete =>
    simp only [appStep]
    split_ifs with h1 h2
    · intro he
      exact absurd h2 (h he)
    · exact h
    · exact h
  case videoReady =>
    simp only [appStep]
    split_ifs with h1
    · intro _
      have hs : s.videoSrc ≠ none := by
        simp only [Bool.and_eq_true, decide_eq_true_eq] at h1
        exact h1.1
      simpa using hs
    · exact h
  case playOk =>
    simp only [appStep]
    split_ifs with h1
    · intro he
      simp only [applyShowEffect_videoSrc]
      exact h (by simpa using he)
    · exact h
  case pauseVideo =>
    simp only [appStep]
    split_ifs with h1
    · intro he
      simp only [applyShowEffect_videoSrc]
      exact h (by simpa using he)
    · exact h
  case videoEnded =>
    simp only [appStep]
    split_ifs with h1
    · intro he
      simp [handleSwitchVideo_fields] at he
    · exact h
  case showTimerFire =>
    simp only [appStep]
    split_ifs <;> exact h
  case hideReq =>
    simp only [appStep]
    split_ifs with h1
    · intro he
      rw [handleHide_videoSrc]
      exact h (by simpa using he)
    · exact h
  case hideComplete =>
    simp only [appStep]
    split_ifs <;> exact h
  case caseClick i =>
    simp only [appStep]
    split_ifs with h1
    · intro he
      simp [handleSwitchVideo_fields] at he
    · exact h
  case prevVideo =>
    simp only [appStep]
    split_ifs with h1
    · intro he
      simp [handleSwitchVideo_fields] at he
    · exact h
  case nextVideo =>
    simp only [appStep]
    split_ifs with h1
    · intro he
      simp [handleSwitchVideo_fields] at he
    · exact h
  case showPanel =>
    simp only [appStep]
    split_ifs <;> exact h
  case resetAll =>
    simp only [appStep]
    split_ifs with hv
    · by_cases hr : s.isResetting = true
      · rw [handleResetAll_of_isResetting s hr]
        exact h
      · intro he
        have hf := handleResetAll_fields s (by simpa using hr)
        rw [hf.2.2.2.2.2.2.2.2.1] at he
        cases he
    · exact h
  case zoomOutComplete =>
    simp only [appStep]
    split_ifs <;> exact h

/-- Every reachable state satisfies `MediaInv`. -/
lemma appRun_mediaInv (evs : List Ev) : MediaInv (appRun evs) := by
  suffices h : ∀ s, MediaInv s → MediaInv (evs.foldl appStep s) from
    h appInit (by simp [MediaInv, appInit])
  induction evs with
  | nil => exact fun s h => h
  | cons e rest ih => exact fun s h => ih (appStep s e) (appStep_mediaInv s e h)

/-- The reachable trace on which claim C4 fails: play the first video, let
the 8-second timer reveal the panel, then reset.  During the reset's hide
window the panel is still rendered (`isResetting` keeps `panelReady` true and
`isHidden` only flips when the hide timeline completes), with no source
loaded and no forward run in flight. -/
def traceC4 : List Ev :=
  [Ev.clickPs1, Ev.zoomComplete, Ev.videoReady, Ev.playOk, Ev.showTimerFire,
   Ev.resetAll]

/-- Claim C4, counterexample.  In the mid-reset state reached by `traceC4`
no source is loaded and no forward Camera run is in flight (so no forward
completion is pending), yet clicking the second jewel case starts loading
its source: the source is set from a place other than the forward run's
completion callback. -/
theorem C4_media_load_during_reset :
    (appRun traceC4).videoSrc = none ∧
    (appRun traceC4).fwdRun = false ∧
    (appRun traceC4).isResetting = true ∧
    Ev.caseClick 1 ≠ Ev.zoomComplete ∧
    (appStep (appRun traceC4) (Ev.caseClick 1)).videoSrc = some "/harryp.webm" := by
  exact ⟨by decide, by decide, by decide, by decide, by decide⟩

/-- Claim C4, amended: a transition of the video source from unloaded
(`none`) to loading (`some`) happens only in the forward run's completion
callback (which checks that no source is loaded) or in a channel-switch
operation (jewel-case click, previous- or next-channel button) issued
through the panel — which remains clickable during a reset's hide window;
and the completion callback never replaces an already-loaded source. -/
theorem C4_media_load_sources :
    (∀ evs : List Ev, MediaInv (appRun evs)) ∧
    (∀ (s : AppState) (e : Ev), MediaInv s → s.videoSrc = none →
      (appStep s e).videoSrc ≠ none →
      (e = Ev.zoomComplete ∨ (∃ i, e = Ev.caseClick i) ∨
        e = Ev.prevVideo ∨ e = Ev.nextVideo)) ∧
    (∀ s : AppState, s.videoSrc ≠ none →
      (appStep s Ev.zoomComplete).videoSrc = s.videoSrc) := by
  refine ⟨appRun_mediaInv, ?_, ?_⟩
  · intro s e hinv hnone hsome
    have helem : s.videoElem = false := by
      cases hbe : s.videoElem
      · rfl
      · exact absurd (hinv hbe) (by simp [hnone])
    cases e
    case zoomComplete => exact Or.inl rfl
    case caseClick i => exact Or.inr (Or.inl ⟨i, rfl⟩)
    case prevVideo => exact Or.inr (Or.inr (Or.inl rfl))
    case nextVideo => exact Or.inr (Or.inr (Or.inr rfl))
    case clickPs1 => exact absurd hnone hsome
    case videoReady =>
      exact absurd (by simp [appStep, hnone]) hsome
    case playOk =>
      exact absurd (by simp [appStep, helem, hnone]) hsome
    case pauseVideo =>
      exact absurd (by simp [appStep, helem, hnone]) hsome
    case videoEnded =>
      exact absurd (by simp [appStep, helem, hnone]) hsome
    case showTimerFire =>
      refine absurd ?_ hsome
      simp only [appStep]
      split_ifs <;> exact hnone
    case hideReq =>
      refine absurd ?_ hsome
      simp only [appStep]
      split_ifs
      · rw [handleHide_videoSrc]
        exact hnone
      · exact hnone
    case hideComplete =>
      refine absurd ?_ hsome
      simp only [appStep]
      split_ifs <;> exact hnone
    case showPanel =>
      refine absurd ?_ hsome
      simp only [appStep]
      split_ifs <;> exact hnone
    case resetAll =>
      refine absurd ?_ hsome
      simp only [appStep]
      split_ifs with hv
      · by_cases hr : s.isResetting = true
        · rw [handleResetAll_of_isResetting s hr]
          exact hnone
        · exact (handleResetAll_fields s (by simpa using hr)).2.2.2.2.2.2.1
      · exact hnone
    case zoomOutComplete =>
      refine absurd ?_ hsome
      simp only [appStep]
      split_ifs <;> exact hnone
  · intro s hsrc
    simp only [appStep]
    split_ifs <;> rfl

/-- Witness for `C4_media_load_sources` at the mid-reset jewel-case click. -/
theorem C4_media_load_sources_witness :
    MediaInv (appRun traceC4) ∧
    (appRun traceC4).videoSrc = none ∧
    (appStep (appRun traceC4) (Ev.caseClick 1)).videoSrc ≠ none ∧
    (Ev.caseClick 1 = Ev.zoomComplete ∨ (∃ i, Ev.caseClick 1 = Ev.caseClick i) ∨
      Ev.caseClick 1 = Ev.prevVideo ∨ Ev.caseClick 1 = Ev.nextVideo) :=
  ⟨by unfold MediaInv; decide, by decide, by decide,
    C4_media_load_sources.2.1 (appRun traceC4) (Ev.caseClick 1)
      (by unfold MediaInv; decide) (by decide) (by decide)⟩

/-! ## The panel auto-reveal latch (claim C7) -/

/-- Latch sanity: the 8-second timer is only ever armed together with the
latch (`hasShownControlsRef`) being set. -/
def GoodLatch (s : AppState) : Prop :=
  s.showTimer = true → s.hasShownControls = true

/-- Number of panel auto-reveals along a trace: a reveal happens exactly when
the armed show timer fires. -/
def countFires : AppState → List Ev → ℕ
  | _, [] => 0
  | s, e :: rest =>
      (if e = Ev.showTimerFire ∧ s.showTimer = true then 1 else 0)
        + countFires (appStep s e) rest

/-- The latch after the show-controls effect: set as soon as media plays
with a ready texture. -/
@[simp] lemma applyShowEffect_hasShownControls (s : AppState) :
    (applyShowEffect s).hasShownControls
      = (s.hasShownControls || (s.isPlaying && s.videoTexture)) := by
  cases hp : s.isPlaying <;> cases ht : s.videoTexture <;>
    cases hs : s.hasShownControls <;> simp [applyShowEffect, hp, ht, hs]

/-- The timer after the show-controls effect: armed exactly when media plays
with a ready texture and the latch had not fired. -/
@[simp] lemma applyShowEffect_showTimer (s : AppState) :
    (applyShowEffect s).showTimer
      = (s.isPlaying && s.videoTexture && !s.hasShownControls) := by
  cases hp : s.isPlaying <;> cases ht : s.videoTexture <;>
    cases hs : s.hasShownControls <;> simp [applyShowEffect, hp, ht, hs]

/-- Once the latch is set with no timer pending, every event other than a
reset keeps the latch set and the timer unarmed. -/
lemma appStep_latchDone (s : AppState) (e : Ev) (hne : e ≠ Ev.resetAll)
    (h1 : s.hasShownControls = true) (h2 : s.showTimer = false) :
    (appStep s e).hasShownControls = true ∧ (appStep s e).showTimer = false := by
  cases e
  case resetAll => exact absurd rfl hne
  all_goals
    first
    | exact ⟨h1, h2⟩
    | (simp only [appStep, handleSwitchVideo, handleHide]
       split_ifs <;>
         first
         | exact ⟨h1, rfl⟩
         | exact ⟨h1, h2⟩
         | (constructor <;> simp [h1, h2]))

/-- No event other than a reset clears the latch. -/
lemma appStep_hasShown (s : AppState) (e : Ev) (hne : e ≠ Ev.resetAll)
    (h1 : s.hasShownControls = true) :
    (appStep s e).hasShownControls = true := by
  cases e
  case resetAll => exact absurd rfl hne
  all_goals
    first
    | exact h1
    | (simp only [appStep, handleSwitchVideo, handleHide]
       split_ifs <;> first | exact h1 | simp [h1])

/-- The show-controls effect establishes `GoodLatch` outright: it arms the
timer only while setting the latch. -/
lemma applyShowEffect_goodLatch (s : AppState) : GoodLatch (applyShowEffect s) := by
  unfold GoodLatch
  cases hp : s.isPlaying <;> cases ht : s.videoTexture <;>
    cases hs : s.hasShownControls <;> simp [applyShowEffect, hp, ht, hs]

/-- Every app-level step preserves `GoodLatch`. -/
lemma appStep_goodLatch (s : AppState) (e : Ev) (h : GoodLatch s) :
    GoodLatch (appStep s e) := by
  cases e
  case clickPs1 => exact h
  case zoomComplete =>
    unfold GoodLatch at h ⊢
    simp only [appStep]
    split_ifs <;> exact h
  case videoReady =>
    simp only [appStep]
    split_ifs
    · exact applyShowEffect_goodLatch _
    · exact h
  case playOk =>
    simp only [appStep]
    split_ifs
    · exact applyShowEffect_goodLatch _
    · exact h
  case pauseVideo =>
    simp only [appStep]
    split_ifs
    · exact applyShowEffect_goodLatch _
    · exact h
  case videoEnded =>
    simp only [appStep]
    split_ifs
    · exact applyShowEffect_goodLatch _
    · exact h
  case showTimerFire =>
    unfold GoodLatch at h ⊢
    simp only [appStep]
    split_ifs with hc
    · intro ht
      exact absurd ht (by simp)
    · exact h
  case hideReq =>
    unfold GoodLatch at h ⊢
    simp only [appStep, handleHide]
    split_ifs <;> exact h
  case hideComplete =>
    unfold GoodLatch at h ⊢
    simp only [appStep]
    split_ifs <;> exact h
  case caseClick i =>
    simp only [appStep]
    split_ifs
    · exact applyShowEffect_goodLatch _
    · exact h
  case prevVideo =>
    simp only [appStep]
    split_ifs
    · exact applyShowEffect_goodLatch _
    · exact h
  case nextVideo =>
    simp only [appStep]
    split_ifs
    · exact applyShowEffect_goodLatch _
    · exact h
  case showPanel =>
    unfold GoodLatch at h ⊢
    simp only [appStep]
    split_ifs <;> exact h
  case resetAll =>
    simp only [appStep]
    split_ifs with hv
    · unfold handleResetAll
      split_ifs with hr
      · exact h
      · exact applyShowEffect_goodLatch _
    · exact h
  case zoomOutComplete =>
    unfold GoodLatch at h ⊢
    simp only [appStep]
    split_ifs <;> exact h

/-- After the latch has fired and the timer is unarmed, a reset-free trace
produces no further reveals. -/
lemma countFires_done (evs : List Ev) :
    ∀ s : AppState, s.hasShownControls = true → s.showTimer = false →
      Ev.resetAll ∉ evs → countFires s evs = 0 := by
  induction evs with
  | nil => intro s _ _ _; rfl
  | cons e rest ih =>
      intro s h1 h2 hni
      have hne : e ≠ Ev.resetAll := by
        intro he
        exact hni (by simp [he])
      have hrest : Ev.resetAll ∉ rest := by
        intro hm
        exact hni (by simp [hm])
      have hd := appStep_latchDone s e hne h1 h2
      have hcond : ¬ (e = Ev.showTimerFire ∧ s.showTimer = true) := by
        rintro ⟨-, ht⟩
        rw [h2] at ht
        cases ht
      simp only [countFires, if_neg hcond]
      simpa using ih (appStep s e) hd.1 hd.2 hrest

/-- After the latch has been set, a reset-free trace reveals at most once. -/
lemma countFires_shown (evs : List Ev) :
    ∀ s : AppState, s.hasShownControls = true → Ev.resetAll ∉ evs →
      countFires s evs ≤ 1 := by
  induction evs with
  | nil => intro s _ _; simp [countFires]
  | cons e rest ih =>
      intro s h1 hni
      have hne : e ≠ Ev.resetAll := by
        intro he
        exact hni (by simp [he])
      have hrest : Ev.resetAll ∉ rest := by
        intro hm
        exact hni (by simp [hm])
      by_cases hf : e = Ev.showTimerFire ∧ s.showTimer = true
      · obtain ⟨hfe, hft⟩ := hf
        subst hfe
        have hstep : appStep s Ev.showTimerFire
            = { s with showTimer := false, showControls := true } := by
          simp [appStep, hft]
        have hz := countFires_done rest (appStep s Ev.showTimerFire)
          (by rw [hstep]; exact h1) (by rw [hstep]) hrest
        simp [countFires, hz, hft]
      · have hh := appStep_hasShown s e hne h1
        have hle := ih (appStep s e) hh hrest
        simp only [countFires, if_neg hf]
        simpa using hle

/-- From any latch-sane state, a reset-free trace reveals at most once. -/
lemma countFires_le_one (evs : List Ev) :
    ∀ s : AppState, GoodLatch s → Ev.resetAll ∉ evs → countFires s evs ≤ 1 := by
  induction evs with
  | nil => intro s _ _; simp [countFires]
  | cons e rest ih =>
      intro s hg hni
      have hrest : Ev.resetAll ∉ rest := by
        intro hm
        exact hni (by simp [hm])
      by_cases hs : s.hasShownControls = true
      · exact countFires_shown (e :: rest) s hs hni
      · have ht : s.showTimer = false := by
          cases hts : s.showTimer
          · rfl
          · exact absurd (hg hts) hs
        have hcond : ¬ (e = Ev.showTimerFire ∧ s.showTimer = true) := by
          rintro ⟨-, c⟩
          rw [ht] at c
          cases c
        simp only [countFires, if_neg hcond]
        simpa using ih (appStep s e) (appStep_goodLatch s e hg) hrest

/-- Claim C7: the panel auto-reveal delay is a one-shot latch.  In any
reset-free trace from a latch-sane state, the armed timer fires (revealing
the panel) at most once; a reset (from a non-resetting state with the panel
mounted) clears both the latch and any pending timer; and after the latch is
cleared, a play with a ready texture arms the full-delay timer afresh while
setting the latch. -/
theorem C7_panel_reveal_latch :
    (∀ (evs : List Ev) (s : AppState), GoodLatch s → Ev.resetAll ∉ evs →
      countFires s evs ≤ 1) ∧
    (∀ s : AppState, s.isResetting = false → panelVisible s = true →
      (appStep s Ev.resetAll).hasShownControls = false ∧
      (appStep s Ev.resetAll).showTimer = false) ∧
    (∀ s : AppState, s.videoElem = true → s.videoTexture = true →
      s.hasShownControls = false →
      (appStep s Ev.playOk).showTimer = true ∧
      (appStep s Ev.playOk).hasShownControls = true) := by
  refine ⟨fun evs s hg hn => countFires_le_one evs s hg hn, ?_, ?_⟩
  · intro s hr hv
    obtain ⟨-, -, -, -, -, -, -, -, -, -, f11, f12⟩ := handleResetAll_fields s hr
    simp only [appStep, hv, if_true]
    exact ⟨f11, f12⟩
  · intro s he ht hn
    simp [appStep, he, applyShowEffect, ht, hn]

/-- Witness for `C7_panel_reveal_latch` on the full reveal trace. -/
theorem C7_panel_reveal_latch_witness :
    GoodLatch appInit ∧
    Ev.resetAll ∉ [Ev.clickPs1, Ev.zoomComplete, Ev.videoReady, Ev.playOk,
      Ev.showTimerFire] ∧
    countFires appInit [Ev.clickPs1, Ev.zoomComplete, Ev.videoReady, Ev.playOk,
      Ev.showTimerFire] ≤ 1 :=
  ⟨by unfold GoodLatch; decide, by decide,
    C7_panel_reveal_latch.1 _ appInit (by unfold GoodLatch; decide) (by decide)⟩

end PS1
